import Mathlib

/-!
Shallow embedding of the aurora-forecast data layer (src/app.js).

The repository is a single client-side script that normalizes two space
weather feeds into a chart-ready shape:

* `process3DayData` (app.js lines 21-61): maps raw `[timestamp, kp, status]`
  triples to a `ChartSeries`, formatting each timestamp through
  `Intl.DateTimeFormat` for the caller-supplied timezone.
* the filter loop of `fetch3DayForecast` (app.js lines 84-90): skips the
  header row (index 0) and every entry whose status is "observed".
* the line scanner of `fetch27DayForecast` (app.js lines 111-136): keeps
  lines that, after trimming, start with four digits, tokenizes them on
  runs of whitespace, and takes tokens 1, 2 and 5.
* `getKpColor` (app.js lines 63-67): severity color thresholds.
* the timezone-selector change handler (app.js lines 267-276).

JavaScript numbers are modelled as `JSNum`: either NaN or an exact
rational. The feeds carry short decimal strings, so no claim depends on
binary rounding; NaN propagation and its comparison behavior (always
false) are modelled exactly. `Intl.DateTimeFormat` is a platform service
backed by the timezone database, so the three-day parser is parameterized
by the formatter; the concrete `utcFormatToParts` models the ECMA-402
output for the "UTC" zone on the feed's well-formed timestamps.
-/

/-- JavaScript number: NaN or an exact rational value. -/
inductive JSNum where
  | nan : JSNum
  | num : ℚ → JSNum
deriving DecidableEq, Repr

/-- JavaScript `x >= y` for `x : JSNum` and a rational threshold `y`:
NaN compares false against everything. -/
def JSNum.ge (x : JSNum) (y : ℚ) : Bool :=
  match x with
  | nan => false
  | num q => decide (y ≤ q)

/-- Value of a list of ASCII digit characters read in base 10. -/
def digitsToNat (ds : List Char) : Nat :=
  ds.foldl (fun n c => 10 * n + (c.toNat - '0'.toNat)) 0

/-- JavaScript `parseFloat`: skip leading whitespace, optional sign, then
the longest prefix of digits with an optional fractional part. No digits
at all gives NaN. (Exponent notation never occurs in the feeds and is not
modelled.) -/
def parseFloat (s : String) : JSNum :=
  let cs := s.toList.dropWhile Char.isWhitespace
  let (neg, cs1) :=
    match cs with
    | '-' :: rest => (true, rest)
    | '+' :: rest => (false, rest)
    | _ => (false, cs)
  let (intDs, cs2) := cs1.span Char.isDigit
  let fracDs :=
    match cs2 with
    | '.' :: rest => (rest.span Char.isDigit).1
    | _ => []
  if intDs.isEmpty && fracDs.isEmpty then JSNum.nan
  else
    let m : Int := digitsToNat (intDs ++ fracDs)
    JSNum.num (mkRat (if neg then -m else m) (10 ^ fracDs.length))

/-- JavaScript `parseInt(s, 10)`: skip leading whitespace, optional sign,
then the longest prefix of digits. No digits gives NaN. -/
def parseInt (s : String) : JSNum :=
  let cs := s.toList.dropWhile Char.isWhitespace
  let (neg, cs1) :=
    match cs with
    | '-' :: rest => (true, rest)
    | '+' :: rest => (false, rest)
    | _ => (false, cs)
  let ds := (cs1.span Char.isDigit).1
  if ds.isEmpty then JSNum.nan
  else
    let m : Int := digitsToNat ds
    JSNum.num (mkRat (if neg then -m else m) 1)

/-- JavaScript `s.trim()`: remove whitespace from both ends. -/
def jsTrim (s : String) : String :=
  (((s.toList.dropWhile Char.isWhitespace).reverse.dropWhile Char.isWhitespace).reverse).asString

/-- Worker for `jsSplitLines`: split a character list at every newline,
keeping empty pieces. -/
def splitLinesGo : List Char → List Char → List String → List String
  | [], cur, acc => acc ++ [cur.reverse.asString]
  | c :: cs, cur, acc =>
    if c = '\n' then splitLinesGo cs [] (acc ++ [cur.reverse.asString])
    else splitLinesGo cs (c :: cur) acc

/-- JavaScript `textData.split('\n')` at app.js line 111. -/
def jsSplitLines (s : String) : List String :=
  splitLinesGo s.toList [] []

/-- Raw three-day feed row: `entry[0]` = "YYYY-MM-DD HH:MM:SS" timestamp,
`entry[1]` = kp index as string, `entry[2]` = status tag. -/
structure RawEntry where
  timeTag : String
  kp : String
  status : String
deriving DecidableEq, Repr

/-- Chart-ready shape `{ labels, dataPoints }` produced by both parsers. -/
structure ChartSeries where
  labels : List String
  dataPoints : List JSNum
deriving DecidableEq, Repr

/-- Output of `Intl.DateTimeFormat(..).formatToParts` as consumed by
`process3DayData` (app.js lines 47-54): the month, day, hour and minute
part values. -/
structure DateParts where
  month : String
  day : String
  hour : String
  minute : String
deriving DecidableEq, Repr

/-- Label built at app.js line 56 from the formatted parts of one entry:
month, space, day, newline, hour, colon, minute. The first argument is
the environment's formatter (timezone, timestamp to parts). -/
def mkLabel (formatToParts : String → String → DateParts) (timezone timeTag : String) : String :=
  let p := formatToParts timezone timeTag
  p.month ++ " " ++ p.day ++ "\n" ++ p.hour ++ ":" ++ p.minute

/-- app.js lines 21-61, `process3DayData(rawData, timezone)`. A null
argument (`!rawData`) returns null; otherwise one label/point pair is
pushed per entry, the label from the timezone-formatted timestamp and the
point from `parseFloat(entry[1])`. The `Intl.DateTimeFormat` platform
service is passed as the `formatToParts` parameter. -/
def process3DayData (formatToParts : String → String → DateParts)
    (rawData : Option (List RawEntry)) (timezone : String) : Option ChartSeries :=
  match rawData with
  | none => none
  | some entries =>
      some { labels := entries.map (fun e => mkLabel formatToParts timezone e.timeTag)
             dataPoints := entries.map (fun e => parseFloat e.kp) }

/-- app.js lines 84-90: the loop in `fetch3DayForecast` starts at index 1
(row 0 of the feed is a header) and keeps entries whose status is not
"observed". -/
def fetch3DayFilter (rawData : List RawEntry) : List RawEntry :=
  (rawData.drop 1).filter (fun e => e.status != "observed")

/-- app.js line 92: the three-day pipeline processes the filtered raw
entries under the current timezone. -/
def fetch3DayPipeline (formatToParts : String → String → DateParts)
    (rawData : List RawEntry) (timezone : String) : Option ChartSeries :=
  process3DayData formatToParts (some (fetch3DayFilter rawData)) timezone

/-- app.js lines 63-67, `getKpColor(kp)`: kp >= 5 is the storm color,
kp >= 4 the active color, anything else (including NaN) the quiet color. -/
def getKpColor (kp : JSNum) : String :=
  if kp.ge 5 then "#ff3333"
  else if kp.ge 4 then "#ffcc00"
  else "#39ff14"

/-- JavaScript regex test `trimmed.match(/^\d{4}/)` at app.js line 119:
the string starts with four consecutive ASCII digits. -/
def startsWithYear (s : String) : Bool :=
  match s.toList with
  | a :: b :: c :: d :: _ => a.isDigit && b.isDigit && c.isDigit && d.isDigit
  | _ => false

/-- Worker for `jsSplitWS`: walks the characters keeping the current token
(reversed) and a flag telling whether the previous character was part of a
whitespace separator run. -/
def jsSplitWSGo : List Char → List Char → Bool → List String → List String
  | [], cur, _, acc => acc ++ [cur.reverse.asString]
  | c :: cs, cur, inSep, acc =>
    if c.isWhitespace then
      if inSep then jsSplitWSGo cs [] true acc
      else jsSplitWSGo cs [] true (acc ++ [cur.reverse.asString])
    else jsSplitWSGo cs (c :: cur) false acc

/-- JavaScript `s.split(/\s+/)` at app.js line 122: split on maximal runs
of whitespace, keeping the (possibly empty) pieces before the first run
and after the last. -/
def jsSplitWS (s : String) : List String :=
  jsSplitWSGo s.toList [] false []

/-- app.js lines 115-134: the per-line step of the 27-day text scanner.
A line is trimmed; if it does not start with four digits it is skipped;
otherwise it is split on whitespace and, when at least 6 tokens result,
yields the pair (token 1 ++ " " ++ token 2, parseInt of token 5). -/
def parse27Line (line : String) : Option (String × JSNum) :=
  let trimmed := jsTrim line
  if startsWithYear trimmed then
    let parts := jsSplitWS trimmed
    if 6 ≤ parts.length then
      some (parts.getD 1 "" ++ " " ++ parts.getD 2 "", parseInt (parts.getD 5 ""))
    else none
  else none

/-- app.js lines 111-136: `fetch27DayForecast` after the text arrives:
split into lines, run the per-line step, and collect the surviving pairs
into a `ChartSeries` in file order. -/
def fetch27DayParse (textData : String) : ChartSeries :=
  let pairs := (jsSplitLines textData).filterMap parse27Line
  { labels := pairs.map Prod.fst
    dataPoints := pairs.map Prod.snd }

/-- Controller state of app.js lines 10-15 (the fields the timezone
handler touches, plus the cached 27-day series for completeness). -/
structure AppState where
  raw3DayData : Option (List RawEntry)
  threeDayData : Option ChartSeries
  twentySevenDayData : Option ChartSeries
  currentMode : String
  currentTimezone : String
deriving DecidableEq, Repr

/-- app.js lines 267-276, the timezone-selector change handler
(`setTimezone` in the spec). It assigns the new timezone, then, if raw
three-day data is cached, recomputes the three-day series under the new
timezone and, when the current mode is "3day", renders it. The second
component is the render request handed to `updateChart` (`none` when no
render happens). -/
def setTimezone (formatToParts : String → String → DateParts)
    (st : AppState) (tz : String) : AppState × Option ChartSeries :=
  let st1 := { st with currentTimezone := tz }
  match st.raw3DayData with
  | none => (st1, none)
  | some raw =>
      let series := process3DayData formatToParts (some raw) tz
      let st2 := { st1 with threeDayData := series }
      if st.currentMode = "3day" then (st2, series) else (st2, none)

/-- ECMA-402 `formatToParts` output for locale "en-US", zone "UTC",
options month short, day numeric, hour and minute 2-digit, hour12 false,
on the feed's well-formed "YYYY-MM-DD HH:MM:SS" timestamps (the code
appends "Z", so the wall clock equals the string's own fields). -/
def monthShortName (m : Nat) : String :=
  match m with
  | 1 => "Jan"
  | 2 => "Feb"
  | 3 => "Mar"
  | 4 => "Apr"
  | 5 => "May"
  | 6 => "Jun"
  | 7 => "Jul"
  | 8 => "Aug"
  | 9 => "Sep"
  | 10 => "Oct"
  | 11 => "Nov"
  | _ => "Dec"

/-- Formatter parts for the "UTC" zone: month name from characters 5-6,
day without its leading zero from characters 8-9, hour and minute taken
verbatim (they are already two-digit, 24-hour). -/
def utcFormatToParts (timeTag : String) : DateParts :=
  let cs := timeTag.toList
  { month := monthShortName (digitsToNat ((cs.drop 5).take 2))
    day := toString (digitsToNat ((cs.drop 8).take 2))
    hour := ((cs.drop 11).take 2).asString
    minute := ((cs.drop 14).take 2).asString }

/-- Environment formatter that applies the UTC semantics to every zone;
used to instantiate theorems at the "UTC" zone. -/
def fmtUTC : String → String → DateParts :=
  fun _ t => utcFormatToParts t

/-- Trivial formatter used when a concrete formatter is needed but the
labels are irrelevant. -/
def fmt0 : String → String → DateParts :=
  fun _ _ => { month := "", day := "", hour := "", minute := "" }

/-!
Theorems for the frozen claims. Each theorem is stated over the embedded
definitions above.
-/

/-- C1: for every Three-Day feed array, "observed" entries never
contribute a label/point pair to the output series, every retained
(non-"observed") entry after the header row contributes exactly one pair,
and the pairs appear in the same relative order as the source entries
(the output pairs are exactly the image, in order, of the filtered entry
list, and nothing in that list has status "observed"). -/
theorem three_day_observed_filtered (fmt : String → String → DateParts)
    (rawData : List RawEntry) (tz : String) :
    ∃ s, fetch3DayPipeline fmt rawData tz = some s ∧
      s.labels.zip s.dataPoints =
        ((rawData.drop 1).filter (fun e => e.status != "observed")).map
          (fun e => (mkLabel fmt tz e.timeTag, parseFloat e.kp)) ∧
      ∀ e ∈ (rawData.drop 1).filter (fun e => e.status != "observed"),
        e.status ≠ "observed" := by
  refine ⟨_, rfl, ?_, ?_⟩
  · simp [fetch3DayPipeline, process3DayData, fetch3DayFilter, List.zip_map']
  · intro e he
    have := List.of_mem_filter he
    simpa using this

/-- C2: every ChartSeries produced by either parser has as many labels as
data points. -/
theorem chart_series_lengths_eq :
    (∀ (fmt : String → String → DateParts) (raw : Option (List RawEntry)) (tz : String)
        (s : ChartSeries), process3DayData fmt raw tz = some s →
        s.labels.length = s.dataPoints.length) ∧
    (∀ text : String,
        (fetch27DayParse text).labels.length = (fetch27DayParse text).dataPoints.length) := by
  constructor
  · intro fmt raw tz s h
    cases raw with
    | none => exact absurd h (by simp [process3DayData])
    | some entries =>
        injection h with h
        rw [← h]
        simp
  · intro text
    simp [fetch27DayParse]

/-- C2 witness: the invariant at a concrete three-day series. -/
theorem chart_series_lengths_eq_witness :
    (ChartSeries.mk ["Jan 1\n00:00"] [JSNum.num (mkRat 333 100)]).labels.length =
      (ChartSeries.mk ["Jan 1\n00:00"] [JSNum.num (mkRat 333 100)]).dataPoints.length :=
  chart_series_lengths_eq.1 fmtUTC
    (some [⟨"2025-01-01 00:00:00", "3.33", "estimated"⟩]) "UTC" _ rfl

/-- C3: the severity color mapping is total on `JSNum` by construction;
5 ≤ kp gives the storm color, 4 ≤ kp < 5 the active color, kp < 4 the
quiet color, and NaN (comparing false against both thresholds) the quiet
color. -/
theorem getKpColor_tiers :
    (∀ q : ℚ, (5 ≤ q → getKpColor (JSNum.num q) = "#ff3333") ∧
      (4 ≤ q → q < 5 → getKpColor (JSNum.num q) = "#ffcc00") ∧
      (q < 4 → getKpColor (JSNum.num q) = "#39ff14")) ∧
    getKpColor JSNum.nan = "#39ff14" := by
  refine ⟨fun q => ⟨fun h => ?_, fun h4 h5 => ?_, fun h => ?_⟩, rfl⟩
  · simp [getKpColor, JSNum.ge, h]
  · simp [getKpColor, JSNum.ge, h4, not_le.mpr h5]
  · simp [getKpColor, JSNum.ge, not_le.mpr h,
      not_le.mpr (h.trans (by norm_num : (4:ℚ) < 5))]

/-- C3 witness: the three tiers at 7, 9/2 and 0. -/
theorem getKpColor_tiers_witness :
    getKpColor (JSNum.num 7) = "#ff3333" ∧
    getKpColor (JSNum.num (9/2)) = "#ffcc00" ∧
    getKpColor (JSNum.num 0) = "#39ff14" :=
  ⟨(getKpColor_tiers.1 7).1 (by norm_num),
   (getKpColor_tiers.1 (9/2)).2.1 (by norm_num) (by norm_num),
   (getKpColor_tiers.1 0).2.2 (by norm_num)⟩

/-- C4: a 27-day line contributes a pair only if, after trimming, it
starts with four digits; in particular the header line produces no
pair. -/
theorem line27_requires_year :
    (∀ line : String, startsWithYear (jsTrim line) = false → parse27Line line = none) ∧
    parse27Line "Date        Flux   A    Kp" = none := by
  constructor
  · intro line h
    simp [parse27Line, h]
  · rfl

/-- C4 witness: a line with seven whitespace-separated tokens that does
not start with four digits yields no pair. -/
theorem line27_requires_year_witness :
    startsWithYear (jsTrim "Mon Dec 29 185 5 2 extra") = false ∧
    parse27Line "Mon Dec 29 185 5 2 extra" = none :=
  ⟨rfl, line27_requires_year.1 "Mon Dec 29 185 5 2 extra" rfl⟩

/-- C5: a trimmed data row (starting with four digits) with at least 6
whitespace tokens yields exactly the pair (token 1 ++ " " ++ token 2,
parseInt of token 5); with fewer than 6 tokens it yields no pair; and the
spec's sample line yields ("Dec 29", 2). -/
theorem line27_data_row :
    (∀ line : String, startsWithYear (jsTrim line) = true →
      (6 ≤ (jsSplitWS (jsTrim line)).length →
        parse27Line line = some
          ((jsSplitWS (jsTrim line)).getD 1 "" ++ " " ++ (jsSplitWS (jsTrim line)).getD 2 "",
            parseInt ((jsSplitWS (jsTrim line)).getD 5 ""))) ∧
      ((jsSplitWS (jsTrim line)).length < 6 → parse27Line line = none)) ∧
    parse27Line "2025 Dec 29     185           5          2" =
      some ("Dec 29", JSNum.num 2) := by
  refine ⟨fun line hy => ⟨fun hlen => ?_, fun hlen => ?_⟩, rfl⟩
  · simp [parse27Line, hy, hlen]
  · simp [parse27Line, hy, not_le.mpr hlen]

/-- C5 witness: a short data row (5 tokens) yields no pair. -/
theorem line27_data_row_witness :
    startsWithYear (jsTrim "2025 Dec 29 185") = true ∧
    (jsSplitWS (jsTrim "2025 Dec 29 185")).length < 6 ∧
    parse27Line "2025 Dec 29 185" = none :=
  ⟨rfl, by decide, (line27_data_row.1 "2025 Dec 29 185" rfl).2 (by decide)⟩

/-- C6: for the single-entry input [["2025-01-01 00:00:00","3.33","estimated"]]
under timezone "UTC", with any environment formatter that agrees with the
ECMA-402 UTC semantics at zone "UTC", the parser returns labels
["Jan 1\n00:00"] and dataPoints [3.33]. -/
theorem three_day_utc_scenario (fmt : String → String → DateParts)
    (hfmt : ∀ t, fmt "UTC" t = utcFormatToParts t) :
    process3DayData fmt (some [⟨"2025-01-01 00:00:00", "3.33", "estimated"⟩]) "UTC" =
      some { labels := ["Jan 1\n00:00"], dataPoints := [JSNum.num (333/100)] } := by
  rw [(by norm_num [mkRat] : (333/100 : ℚ) = mkRat 333 100)]
  simp only [process3DayData, mkLabel, hfmt, List.map]
  rfl

/-- C6 witness: the scenario under the concrete UTC formatter. -/
theorem three_day_utc_scenario_witness :
    process3DayData fmtUTC (some [⟨"2025-01-01 00:00:00", "3.33", "estimated"⟩]) "UTC" =
      some { labels := ["Jan 1\n00:00"], dataPoints := [JSNum.num (333/100)] } :=
  three_day_utc_scenario fmtUTC (fun _ => rfl)

/-- C7: the three-day parser is timezone-pure: on the same raw entries
under any two timezones it returns series with identical dataPoints and
the same number of pairs (hence the same order); only label text may
differ. -/
theorem three_day_timezone_pure (fmt : String → String → DateParts)
    (entries : List RawEntry) (tz1 tz2 : String) :
    ∃ s1 s2, process3DayData fmt (some entries) tz1 = some s1 ∧
      process3DayData fmt (some entries) tz2 = some s2 ∧
      s1.dataPoints = s2.dataPoints ∧
      s1.labels.length = s2.labels.length ∧
      s1.labels.length = s1.dataPoints.length := by
  refine ⟨_, _, rfl, rfl, rfl, by simp [process3DayData], by simp [process3DayData]⟩

/-- C8: the three-day parser maps a missing (null) input to null, not an
exception and not a series. -/
theorem three_day_null_input (fmt : String → String → DateParts) (tz : String) :
    process3DayData fmt none tz = none ∧
    ∀ s, process3DayData fmt none tz ≠ some s := by
  exact ⟨rfl, fun s h => Option.noConfusion h⟩

/-- C9 counterexample: with no cached three-day raw data, the timezone
change handler is not a no-op: starting from timezone "UTC" it still
rewrites the controller's current timezone to the newly selected zone. -/
theorem setTimezone_noop_cex :
    (AppState.mk none none none "3day" "UTC").raw3DayData = none ∧
    (setTimezone fmt0 (AppState.mk none none none "3day" "UTC") "Europe/Oslo").1 ≠
      AppState.mk none none none "3day" "UTC" ∧
    (setTimezone fmt0 (AppState.mk none none none "3day" "UTC") "Europe/Oslo").1.currentTimezone =
      "Europe/Oslo" := by
  refine ⟨rfl, ?_, rfl⟩
  intro h
  have hs := congrArg AppState.currentTimezone h
  exact absurd (show ("Europe/Oslo" : String) = "UTC" from hs) (by decide)

/-- C9 amended: the handler always records the new timezone; when raw
three-day data is cached it also recomputes the three-day series under the
new timezone and renders it exactly when the current mode is "3day"; when
no raw data is cached it changes nothing else and renders nothing. -/
theorem setTimezone_behavior (fmt : String → String → DateParts)
    (st : AppState) (tz : String) :
    (∀ raw, st.raw3DayData = some raw →
      setTimezone fmt st tz =
        ({ st with
             currentTimezone := tz
             threeDayData := process3DayData fmt (some raw) tz },
         if st.currentMode = "3day" then process3DayData fmt (some raw) tz else none)) ∧
    (st.raw3DayData = none →
      setTimezone fmt st tz = ({ st with currentTimezone := tz }, none)) := by
  constructor
  · intro raw h
    by_cases hm : st.currentMode = "3day" <;> simp [setTimezone, h, hm]
  · intro h
    simp [setTimezone, h]

/-- C9 amended witness: the no-raw-data case at a concrete state. -/
theorem setTimezone_behavior_witness :
    setTimezone fmt0 (AppState.mk none none none "3day" "UTC") "Europe/Oslo" =
      (AppState.mk none none none "3day" "Europe/Oslo", none) :=
  (setTimezone_behavior fmt0 (AppState.mk none none none "3day" "UTC") "Europe/Oslo").2 rfl

/-- C10: a present but empty entry list yields the empty series, not
null: the null result is reserved for a missing input. -/
theorem three_day_empty_input (fmt : String → String → DateParts) (tz : String) :
    process3DayData fmt (some []) tz = some { labels := [], dataPoints := [] } ∧
    process3DayData fmt (some []) tz ≠ none := by
  exact ⟨rfl, fun h => Option.noConfusion h⟩
